import Mathlib

/-!
Shallow embedding of `internal/store/verticalpodautoscaler.go` from
kube-state-metrics: the VerticalPodAutoscaler metric family generators,
the resource-quantity-to-metric conversion, the default-label wrapper and
the list/watch factory, together with proofs of the specification claims.

Go maps are embedded as association lists recording one enumeration order
of the map; Go's `range` over a map may enumerate in any order, so a fact
that is claimed for "the map" must hold for every permutation of such a
list. Quantities are embedded by the two accessor results the code uses
(`MilliValue()` and `Value()`), metric values by rationals (the float
arithmetic performed by the code — division of a small integer by 1000 —
is exact on every value the claims mention). A failed Go type assertion
panics; panics are embedded as the `Except.error` branch.
-/

namespace KSM

/-- Metric mirrors `metric.Metric`: ordered label keys, parallel label
values, and one numeric value. -/
structure Metric where
  labelKeys : List String
  labelValues : List String
  value : ℚ
deriving Repr, DecidableEq

/-- Family mirrors `metric.Family`: the ordered metrics of one generator
invocation. -/
structure Family where
  metrics : List Metric
deriving Repr, DecidableEq

/-- Quantity embeds `resource.Quantity` by the two accessors the code
calls: `MilliValue()` (value in thousandths, e.g. 500 for "500m") and
`Value()` (the rounded-up integral value, e.g. 134217728 for "128Mi"). -/
structure Quantity where
  milliValue : Int
  value : Int
deriving Repr, DecidableEq

/-- ResourceList embeds `v1.ResourceList`, a Go map from resource name to
quantity, as one enumeration of its entries. -/
abbrev ResourceList := List (String × Quantity)

/-- CrossVersionObjectReference mirrors `autoscalingv1.CrossVersionObjectReference`. -/
structure CrossVersionObjectReference where
  apiVersion : String
  kind : String
  name : String
deriving Repr, DecidableEq

/-- PodUpdatePolicy mirrors `autoscaling.PodUpdatePolicy`; `UpdateMode`
is a pointer to a string-typed enum, hence an `Option String`. -/
structure PodUpdatePolicy where
  updateMode : Option String
deriving Repr, DecidableEq

/-- ContainerResourcePolicy mirrors `autoscaling.ContainerResourcePolicy`
(the fields the code reads). -/
structure ContainerResourcePolicy where
  containerName : String
  minAllowed : ResourceList
  maxAllowed : ResourceList
deriving Repr, DecidableEq

/-- PodResourcePolicy mirrors `autoscaling.PodResourcePolicy`; a nil
`ContainerPolicies` slice is `none`. -/
structure PodResourcePolicy where
  containerPolicies : Option (List ContainerResourcePolicy)
deriving Repr, DecidableEq

/-- VerticalPodAutoscalerSpec mirrors the spec fields the code reads;
nil pointers are `none`. -/
structure VerticalPodAutoscalerSpec where
  targetRef : Option CrossVersionObjectReference
  updatePolicy : Option PodUpdatePolicy
  resourcePolicy : Option PodResourcePolicy
deriving Repr, DecidableEq

/-- RecommendedContainerResources mirrors `autoscaling.RecommendedContainerResources`. -/
structure RecommendedContainerResources where
  containerName : String
  target : ResourceList
  lowerBound : ResourceList
  upperBound : ResourceList
  uncappedTarget : ResourceList
deriving Repr, DecidableEq

/-- RecommendedPodResources mirrors `autoscaling.RecommendedPodResources`;
a nil `ContainerRecommendations` slice is `none`. -/
structure RecommendedPodResources where
  containerRecommendations : Option (List RecommendedContainerResources)
deriving Repr, DecidableEq

/-- VerticalPodAutoscalerStatus mirrors the status fields the code reads. -/
structure VerticalPodAutoscalerStatus where
  recommendation : Option RecommendedPodResources
deriving Repr, DecidableEq

/-- VerticalPodAutoscaler mirrors `autoscaling.VerticalPodAutoscaler`,
with the object metadata the code reads (namespace, name, and the two
free-form maps) flattened in; the maps are association lists.
`namespaceName` stands for the Go `Namespace` field (`namespace` is a
Lean keyword). -/
structure VerticalPodAutoscaler where
  namespaceName : String
  name : String
  annotations : List (String × String)
  labels : List (String × String)
  spec : VerticalPodAutoscalerSpec
  status : VerticalPodAutoscalerStatus
deriving Repr, DecidableEq

/-- RuntimeObj embeds the Go `interface\x7b\x7d` argument of a wrapped
generator: either the expected concrete variant or some other object. -/
inductive RuntimeObj where
  | vpa (v : VerticalPodAutoscaler)
  | other (tag : String)
deriving Repr, DecidableEq

/-- FamilyGenerator mirrors `generator.FamilyGenerator`; the generate
function takes the opaque object and either returns a family or panics
(`Except.error`). -/
structure FamilyGenerator where
  name : String
  help : String
  type : String
  deprecatedVersion : String
  generateFunc : RuntimeObj → Except String Family

/-- Modelled from the spec: `generator.NewFamilyGenerator` (package
`pkg/metric_generator`, not under `src/`) constructs the immutable
generator record \x7bname, help, kind, deprecation marker, extraction
function\x7d. -/
def NewFamilyGenerator (name help type deprecatedVersion : String)
    (generateFunc : RuntimeObj → Except String Family) : FamilyGenerator :=
  { name := name, help := help, type := type,
    deprecatedVersion := deprecatedVersion, generateFunc := generateFunc }

/-- Gauge metric type string, mirroring `metric.Gauge`. -/
def metricGauge : String := "gauge"

/-- Resource name constant mirroring `v1.ResourceCPU`. -/
def resourceCPU : String := "cpu"

/-- Resource name constant mirroring `v1.ResourceMemory`. -/
def resourceMemory : String := "memory"

/-- Resource name constant mirroring `v1.ResourceStorage`. -/
def resourceStorage : String := "storage"

/-- Resource name constant mirroring `v1.ResourceEphemeralStorage`. -/
def resourceEphemeralStorage : String := "ephemeral-storage"

/-- Unit constant mirroring `constant.UnitCore`. -/
def unitCore : String := "core"

/-- Unit constant mirroring `constant.UnitByte`. -/
def unitByte : String := "byte"

/-- Update mode constant mirroring `autoscaling.UpdateModeOff`. -/
def updateModeOff : String := "Off"

/-- Update mode constant mirroring `autoscaling.UpdateModeInitial`. -/
def updateModeInitial : String := "Initial"

/-- Update mode constant mirroring `autoscaling.UpdateModeRecreate`. -/
def updateModeRecreate : String := "Recreate"

/-- Update mode constant mirroring `autoscaling.UpdateModeAuto`. -/
def updateModeAuto : String := "Auto"

/-- Modelled from the spec: `sanitizeLabelName` (store utilities, not
under `src/`): every character outside `[A-Za-z0-9_]` becomes `_`; if
the result does not start with a letter or underscore, `_` is prepended. -/
def sanitizeLabelName (s : String) : String :=
  let cs := s.data.map (fun c => if c.isAlpha || c.isDigit || c = '_' then c else '_')
  match cs with
  | [] => String.mk ('_' :: [])
  | c :: _ => if c.isAlpha || c = '_' then String.mk cs else String.mk ('_' :: cs)

/-- Helper for the modelled label composer: first-seen-wins deduplication
of entries by their (already sanitized) key. -/
def dedupByKey : List (String × String) → List String → List (String × String)
  | [], _ => []
  | kv :: rest, seen =>
    if seen.contains kv.1 then dedupByKey rest seen
    else kv :: dedupByKey rest (kv.1 :: seen)

/-- Modelled from the spec: `createPrometheusLabelKeysValues` (store
utilities, not under `src/`), the label composer. Keys are prefixed with
the key-namespace and sanitized. The wildcard allow-list `["*"]` includes
every entry sorted lexicographically by sanitized key; an explicit
allow-list includes only listed keys in its declared order; collisions
are resolved first-seen-wins; an empty map or empty allow-list yields
empty (not absent) parallel sequences. -/
def createPrometheusLabelKeysValues (pfx : String) (m : List (String × String))
    (allowList : List String) : List String × List String :=
  let pairs :=
    if allowList = ["*"] then
      (m.map (fun kv => (pfx ++ "_" ++ sanitizeLabelName kv.1, kv.2))).mergeSort
        (fun a b => decide (a.1 ≤ b.1))
    else
      allowList.filterMap (fun k =>
        (m.lookup k).map (fun v => (pfx ++ "_" ++ sanitizeLabelName k, v)))
  let deduped := dedupByKey pairs []
  (deduped.map Prod.fst, deduped.map Prod.snd)

/-- Default identifying labels, mirroring
`descVerticalPodAutoscalerLabelsDefaultLabels`. -/
def descVerticalPodAutoscalerLabelsDefaultLabels : List String :=
  ["namespace", "verticalpodautoscaler", "target_api_version", "target_kind", "target_name"]

/-- Name constant mirroring `descVerticalPodAutoscalerAnnotationsName`. -/
def descVerticalPodAutoscalerAnnotationsName : String :=
  "kube_verticalpodautoscaler_annotations"

/-- Help constant mirroring `descVerticalPodAutoscalerAnnotationsHelp`. -/
def descVerticalPodAutoscalerAnnotationsHelp : String :=
  "Kubernetes annotations converted to Prometheus labels."

/-- Name constant mirroring `descVerticalPodAutoscalerLabelsName`. -/
def descVerticalPodAutoscalerLabelsName : String :=
  "kube_verticalpodautoscaler_labels"

/-- Help constant mirroring `descVerticalPodAutoscalerLabelsHelp`. -/
def descVerticalPodAutoscalerLabelsHelp : String :=
  "Kubernetes labels converted to Prometheus labels."

/-- Conversion of one resource map entry, mirroring the `switch` in
`vpaResourcesToMetrics`: cpu yields `MilliValue()/1000` with unit core;
storage and ephemeral-storage fall through to the memory case, which
yields `Value()` with unit byte; any other name yields nothing. -/
def convertVPAResource (containerName : String) (rq : String × Quantity) : Option Metric :=
  if rq.1 = resourceCPU then
    some { labelKeys := [],
           labelValues := [containerName, sanitizeLabelName rq.1, unitCore],
           value := (rq.2.milliValue : ℚ) / 1000 }
  else if rq.1 = resourceStorage || rq.1 = resourceEphemeralStorage || rq.1 = resourceMemory then
    some { labelKeys := [],
           labelValues := [containerName, sanitizeLabelName rq.1, unitByte],
           value := (rq.2.value : ℚ) }
  else
    none

/-- vpaResourcesToMetrics mirrors the Go function: one metric per
recognized entry of the enumeration, then a second pass setting every
metric's label keys to container/resource/unit. -/
def vpaResourcesToMetrics (containerName : String) (resources : ResourceList) : List Metric :=
  let ms := resources.filterMap (convertVPAResource containerName)
  ms.map (fun m => { m with labelKeys := ["container", "resource", "unit"] })

/-- Extraction function of the annotations generator (the closure at the
first registry entry). -/
def vpaAnnotationsFunc (allowAnnotationsList : List String)
    (a : VerticalPodAutoscaler) : Family :=
  let kv := createPrometheusLabelKeysValues "annotation" a.annotations allowAnnotationsList
  { metrics := [{ labelKeys := kv.1, labelValues := kv.2, value := 1 }] }

/-- Extraction function of the labels generator (second registry entry). -/
def vpaLabelsFunc (allowLabelsList : List String)
    (a : VerticalPodAutoscaler) : Family :=
  let kv := createPrometheusLabelKeysValues "label" a.labels allowLabelsList
  { metrics := [{ labelKeys := kv.1, labelValues := kv.2, value := 1 }] }

/-- Extraction function of the update-mode generator: nil update policy
or nil update mode yields no metrics; otherwise one metric per
enumerated mode, value 1 exactly on the matching mode. -/
def vpaUpdateModeFunc (a : VerticalPodAutoscaler) : Family :=
  match a.spec.updatePolicy with
  | none => { metrics := [] }
  | some p =>
    match p.updateMode with
    | none => { metrics := [] }
    | some um =>
      { metrics :=
          [updateModeOff, updateModeInitial, updateModeRecreate, updateModeAuto].map
            (fun mode =>
              { labelKeys := ["update_mode"], labelValues := [mode],
                value := if um = mode then 1 else 0 }) }

/-- Extraction function of the min-allowed generator. -/
def vpaMinAllowedFunc (a : VerticalPodAutoscaler) : Family :=
  match a.spec.resourcePolicy with
  | none => { metrics := [] }
  | some rp =>
    match rp.containerPolicies with
    | none => { metrics := [] }
    | some cps =>
      { metrics := (cps.map (fun c => vpaResourcesToMetrics c.containerName c.minAllowed)).flatten }

/-- Extraction function of the max-allowed generator. -/
def vpaMaxAllowedFunc (a : VerticalPodAutoscaler) : Family :=
  match a.spec.resourcePolicy with
  | none => { metrics := [] }
  | some rp =>
    match rp.containerPolicies with
    | none => { metrics := [] }
    | some cps =>
      { metrics := (cps.map (fun c => vpaResourcesToMetrics c.containerName c.maxAllowed)).flatten }

/-- Extraction function of the lower-bound generator. -/
def vpaLowerBoundFunc (a : VerticalPodAutoscaler) : Family :=
  match a.status.recommendation with
  | none => { metrics := [] }
  | some r =>
    match r.containerRecommendations with
    | none => { metrics := [] }
    | some crs =>
      { metrics := (crs.map (fun c => vpaResourcesToMetrics c.containerName c.lowerBound)).flatten }

/-- Extraction function of the upper-bound generator. -/
def vpaUpperBoundFunc (a : VerticalPodAutoscaler) : Family :=
  match a.status.recommendation with
  | none => { metrics := [] }
  | some r =>
    match r.containerRecommendations with
    | none => { metrics := [] }
    | some crs =>
      { metrics := (crs.map (fun c => vpaResourcesToMetrics c.containerName c.upperBound)).flatten }

/-- Extraction function of the target generator. -/
def vpaTargetFunc (a : VerticalPodAutoscaler) : Family :=
  match a.status.recommendation with
  | none => { metrics := [] }
  | some r =>
    match r.containerRecommendations with
    | none => { metrics := [] }
    | some crs =>
      { metrics := (crs.map (fun c => vpaResourcesToMetrics c.containerName c.target)).flatten }

/-- Extraction function of the uncapped-target generator. -/
def vpaUncappedTargetFunc (a : VerticalPodAutoscaler) : Family :=
  match a.status.recommendation with
  | none => { metrics := [] }
  | some r =>
    match r.containerRecommendations with
    | none => { metrics := [] }
    | some crs =>
      { metrics := (crs.map (fun c => vpaResourcesToMetrics c.containerName c.uncappedTarget)).flatten }

/-- Panic message of the failed Go type assertion in `wrapVPAFunc`. -/
def vpaTypeAssertionFailure : String :=
  "interface conversion: interface is not *VerticalPodAutoscaler"

/-- Zero value substituted for a nil target reference. -/
def emptyCrossVersionObjectReference : CrossVersionObjectReference :=
  { apiVersion := "", kind := "", name := "" }

/-- Loop body of the wrapper, named for the proofs: the default
identifying label keys and the corresponding identifying values are
prepended to one metric; a nil target reference has already been
replaced by the zero value. -/
def wrapMetric (vpa : VerticalPodAutoscaler) (m : Metric) : Metric :=
  let targetRef := vpa.spec.targetRef.getD emptyCrossVersionObjectReference
  { m with
    labelKeys := descVerticalPodAutoscalerLabelsDefaultLabels ++ m.labelKeys,
    labelValues :=
      [vpa.namespaceName, vpa.name, targetRef.apiVersion, targetRef.kind,
       targetRef.name] ++ m.labelValues }

/-- wrapVPAFunc mirrors the Go wrapper: a bare type assertion (which
panics on any other variant), then the default identifying label keys
and the corresponding values are prepended to every metric of the family
returned by the typed function; a nil target reference is replaced by
the zero value so the three target values become empty strings. -/
def wrapVPAFunc (f : VerticalPodAutoscaler → Family) : RuntimeObj → Except String Family :=
  fun obj =>
    match obj with
    | .other _ => .error vpaTypeAssertionFailure
    | .vpa vpa => .ok { metrics := (f vpa).metrics.map (wrapMetric vpa) }

/-- vpaMetricFamilies mirrors the Go registry: the nine generators in
declaration order. -/
def vpaMetricFamilies (allowAnnotationsList allowLabelsList : List String) :
    List FamilyGenerator :=
  [ NewFamilyGenerator descVerticalPodAutoscalerAnnotationsName
      descVerticalPodAutoscalerAnnotationsHelp metricGauge ""
      (wrapVPAFunc (vpaAnnotationsFunc allowAnnotationsList)),
    NewFamilyGenerator descVerticalPodAutoscalerLabelsName
      descVerticalPodAutoscalerLabelsHelp metricGauge ""
      (wrapVPAFunc (vpaLabelsFunc allowLabelsList)),
    NewFamilyGenerator "kube_verticalpodautoscaler_spec_updatepolicy_updatemode"
      "Update mode of the VerticalPodAutoscaler." metricGauge ""
      (wrapVPAFunc vpaUpdateModeFunc),
    NewFamilyGenerator "kube_verticalpodautoscaler_spec_resourcepolicy_container_policies_minallowed"
      "Minimum resources the VerticalPodAutoscaler can set for containers matching the name."
      metricGauge "" (wrapVPAFunc vpaMinAllowedFunc),
    NewFamilyGenerator "kube_verticalpodautoscaler_spec_resourcepolicy_container_policies_maxallowed"
      "Maximum resources the VerticalPodAutoscaler can set for containers matching the name."
      metricGauge "" (wrapVPAFunc vpaMaxAllowedFunc),
    NewFamilyGenerator "kube_verticalpodautoscaler_status_recommendation_containerrecommendations_lowerbound"
      "Minimum resources the container can use before the VerticalPodAutoscaler updater evicts it."
      metricGauge "" (wrapVPAFunc vpaLowerBoundFunc),
    NewFamilyGenerator "kube_verticalpodautoscaler_status_recommendation_containerrecommendations_upperbound"
      "Maximum resources the container can use before the VerticalPodAutoscaler updater evicts it."
      metricGauge "" (wrapVPAFunc vpaUpperBoundFunc),
    NewFamilyGenerator "kube_verticalpodautoscaler_status_recommendation_containerrecommendations_target"
      "Target resources the VerticalPodAutoscaler recommends for the container."
      metricGauge "" (wrapVPAFunc vpaTargetFunc),
    NewFamilyGenerator "kube_verticalpodautoscaler_status_recommendation_containerrecommendations_uncappedtarget"
      "Target resources the VerticalPodAutoscaler recommends for the container ignoring bounds."
      metricGauge "" (wrapVPAFunc vpaUncappedTargetFunc) ]

/-- ListOptions embeds `metav1.ListOptions` by the fields relevant to
parameter threading. -/
structure ListOptions where
  labelSelector : String
  fieldSelector : String
  resourceVersion : String
deriving Repr, DecidableEq

/-- VPAList embeds the list result: items plus a resource-version cursor. -/
structure VPAList where
  items : List VerticalPodAutoscaler
  resourceVersion : String
deriving Repr, DecidableEq

/-- WatchHandle embeds the opaque `watch.Interface` result. -/
structure WatchHandle where
  id : Nat
deriving Repr, DecidableEq

/-- VPANamespacedInterface embeds the namespaced client sub-interface:
`List` and `Watch`, each taking options and either succeeding or failing. -/
structure VPANamespacedInterface where
  list : ListOptions → Except String VPAList
  watch : ListOptions → Except String WatchHandle

/-- AutoscalingV1beta2Interface embeds the group/version client:
`VerticalPodAutoscalers(ns)` selects the namespaced sub-interface. -/
structure AutoscalingV1beta2Interface where
  verticalPodAutoscalers : String → VPANamespacedInterface

/-- VPAClientsetInterface embeds `vpaclientset.Interface` restricted to
the sub-interface the factory uses. -/
structure VPAClientsetInterface where
  autoscalingV1beta2 : AutoscalingV1beta2Interface

/-- KubeClientset embeds the (unused) `clientset.Interface` parameter. -/
structure KubeClientset where
  tag : String

/-- ListerWatcher embeds `cache.ListWatch`: the produced function pair. -/
structure ListerWatcher where
  listFunc : ListOptions → Except String VPAList
  watchFunc : ListOptions → Except String WatchHandle

/-- createVPAListWatchFunc mirrors the Go factory: the returned pair
threads the namespace and the per-call options to the backing client
unchanged (the context argument is `context.TODO()`, carrying no data). -/
def createVPAListWatchFunc (vpaClient : VPAClientsetInterface) :
    KubeClientset → String → ListerWatcher :=
  fun _kubeClient ns =>
    { listFunc := fun opts =>
        (vpaClient.autoscalingV1beta2.verticalPodAutoscalers ns).list opts,
      watchFunc := fun opts =>
        (vpaClient.autoscalingV1beta2.verticalPodAutoscalers ns).watch opts }

/-- Alignment invariant of a family: every metric has as many label keys
as label values. -/
def familyAligned (fam : Family) : Prop :=
  ∀ m ∈ fam.metrics, m.labelKeys.length = m.labelValues.length

/-- Witness object: a VerticalPodAutoscaler with every optional field unset. -/
def witVPA : VerticalPodAutoscaler :=
  { namespaceName := "ns1", name := "vpa1", annotations := [], labels := [],
    spec := { targetRef := none, updatePolicy := none, resourcePolicy := none },
    status := { recommendation := none } }

/-- Family the annotations generator emits for `witVPA` under an empty
allow-list: one metric carrying only the default identifying labels. -/
def witAnnotationsFam : Family :=
  { metrics := [{ labelKeys := descVerticalPodAutoscalerLabelsDefaultLabels,
                  labelValues := ["ns1", "vpa1", "", "", ""], value := 1 }] }

/-- Helper: the two sequences the label composer returns always have the
same length. -/
theorem createPrometheusLabelKeysValues_length (pfx : String)
    (m : List (String × String)) (allowList : List String) :
    (createPrometheusLabelKeysValues pfx m allowList).1.length =
      (createPrometheusLabelKeysValues pfx m allowList).2.length := by
  unfold createPrometheusLabelKeysValues
  simp

/-- Helper: a converted resource entry always carries three label values. -/
theorem convertVPAResource_length {c : String} {rq : String × Quantity} {m0 : Metric}
    (h : convertVPAResource c rq = some m0) : m0.labelValues.length = 3 := by
  unfold convertVPAResource at h
  split at h
  · have he := Option.some.inj h
    subst he
    rfl
  · split at h
    · have he := Option.some.inj h
      subst he
      rfl
    · simp at h

/-- Helper: every metric of `vpaResourcesToMetrics` has exactly the keys
container/resource/unit and three label values. -/
theorem mem_vpaResourcesToMetrics_shape {c : String} {res : ResourceList} :
    ∀ m ∈ vpaResourcesToMetrics c res,
      m.labelKeys = ["container", "resource", "unit"] ∧ m.labelValues.length = 3 := by
  intro m hm
  unfold vpaResourcesToMetrics at hm
  simp only [List.mem_map, List.mem_filterMap] at hm
  obtain ⟨m0, ⟨rq, _, hconv⟩, rfl⟩ := hm
  constructor
  · rfl
  · show m0.labelValues.length = 3
    exact convertVPAResource_length hconv

/-- Helper: the metrics of `vpaResourcesToMetrics` are aligned. -/
theorem vpaResourcesToMetrics_aligned (c : String) (res : ResourceList) :
    ∀ m ∈ vpaResourcesToMetrics c res, m.labelKeys.length = m.labelValues.length := by
  intro m hm
  obtain ⟨hk, hv⟩ := mem_vpaResourcesToMetrics_shape m hm
  simp [hk, hv]

/-- Helper: a family assembled by concatenating per-container resource
metrics is aligned. -/
theorem familyAligned_flattenResources {κ : Type} (cname : κ → String)
    (res : κ → ResourceList) (cs : List κ) :
    familyAligned { metrics := (cs.map (fun c => vpaResourcesToMetrics (cname c) (res c))).flatten } := by
  intro m hm
  simp only [List.mem_flatten, List.mem_map] at hm
  obtain ⟨l, ⟨c, _, rfl⟩, hml⟩ := hm
  exact vpaResourcesToMetrics_aligned _ _ m hml

/-- Helper: the annotations extraction function is aligned. -/
theorem familyAligned_vpaAnnotationsFunc (aL : List String) (v : VerticalPodAutoscaler) :
    familyAligned (vpaAnnotationsFunc aL v) := by
  intro m hm
  simp only [vpaAnnotationsFunc, List.mem_singleton] at hm
  subst hm
  exact createPrometheusLabelKeysValues_length _ _ _

/-- Helper: the labels extraction function is aligned. -/
theorem familyAligned_vpaLabelsFunc (lL : List String) (v : VerticalPodAutoscaler) :
    familyAligned (vpaLabelsFunc lL v) := by
  intro m hm
  simp only [vpaLabelsFunc, List.mem_singleton] at hm
  subst hm
  exact createPrometheusLabelKeysValues_length _ _ _

/-- Helper: the update-mode extraction function is aligned. -/
theorem familyAligned_vpaUpdateModeFunc (v : VerticalPodAutoscaler) :
    familyAligned (vpaUpdateModeFunc v) := by
  obtain ⟨ns, nm, ann, lab, ⟨tr, up, rp⟩, st⟩ := v
  cases up with
  | none => intro m hm; simp [vpaUpdateModeFunc] at hm
  | some p =>
    obtain ⟨um⟩ := p
    cases um with
    | none => intro m hm; simp [vpaUpdateModeFunc] at hm
    | some mo =>
      intro m hm
      simp only [vpaUpdateModeFunc, List.map_cons, List.map_nil, List.mem_cons,
        List.not_mem_nil, or_false] at hm
      rcases hm with rfl | rfl | rfl | rfl <;> rfl

/-- Helper: the min-allowed extraction function is aligned. -/
theorem familyAligned_vpaMinAllowedFunc (v : VerticalPodAutoscaler) :
    familyAligned (vpaMinAllowedFunc v) := by
  obtain ⟨ns, nm, ann, lab, ⟨tr, up, rp⟩, st⟩ := v
  cases rp with
  | none => intro m hm; simp [vpaMinAllowedFunc] at hm
  | some rp0 =>
    obtain ⟨cps⟩ := rp0
    cases cps with
    | none => intro m hm; simp [vpaMinAllowedFunc] at hm
    | some cs =>
      show familyAligned
        { metrics := (cs.map (fun c => vpaResourcesToMetrics c.containerName c.minAllowed)).flatten }
      exact familyAligned_flattenResources _ _ cs

/-- Helper: the max-allowed extraction function is aligned. -/
theorem familyAligned_vpaMaxAllowedFunc (v : VerticalPodAutoscaler) :
    familyAligned (vpaMaxAllowedFunc v) := by
  obtain ⟨ns, nm, ann, lab, ⟨tr, up, rp⟩, st⟩ := v
  cases rp with
  | none => intro m hm; simp [vpaMaxAllowedFunc] at hm
  | some rp0 =>
    obtain ⟨cps⟩ := rp0
    cases cps with
    | none => intro m hm; simp [vpaMaxAllowedFunc] at hm
    | some cs =>
      show familyAligned
        { metrics := (cs.map (fun c => vpaResourcesToMetrics c.containerName c.maxAllowed)).flatten }
      exact familyAligned_flattenResources _ _ cs

/-- Helper: the lower-bound extraction function is aligned. -/
theorem familyAligned_vpaLowerBoundFunc (v : VerticalPodAutoscaler) :
    familyAligned (vpaLowerBoundFunc v) := by
  obtain ⟨ns, nm, ann, lab, sp, ⟨rec⟩⟩ := v
  cases rec with
  | none => intro m hm; simp [vpaLowerBoundFunc] at hm
  | some r0 =>
    obtain ⟨crs⟩ := r0
    cases crs with
    | none => intro m hm; simp [vpaLowerBoundFunc] at hm
    | some cs =>
      show familyAligned
        { metrics := (cs.map (fun c => vpaResourcesToMetrics c.containerName c.lowerBound)).flatten }
      exact familyAligned_flattenResources _ _ cs

/-- Helper: the upper-bound extraction function is aligned. -/
theorem familyAligned_vpaUpperBoundFunc (v : VerticalPodAutoscaler) :
    familyAligned (vpaUpperBoundFunc v) := by
  obtain ⟨ns, nm, ann, lab, sp, ⟨rec⟩⟩ := v
  cases rec with
  | none => intro m hm; simp [vpaUpperBoundFunc] at hm
  | some r0 =>
    obtain ⟨crs⟩ := r0
    cases crs with
    | none => intro m hm; simp [vpaUpperBoundFunc] at hm
    | some cs =>
      show familyAligned
        { metrics := (cs.map (fun c => vpaResourcesToMetrics c.containerName c.upperBound)).flatten }
      exact familyAligned_flattenResources _ _ cs

/-- Helper: the target extraction function is aligned. -/
theorem familyAligned_vpaTargetFunc (v : VerticalPodAutoscaler) :
    familyAligned (vpaTargetFunc v) := by
  obtain ⟨ns, nm, ann, lab, sp, ⟨rec⟩⟩ := v
  cases rec with
  | none => intro m hm; simp [vpaTargetFunc] at hm
  | some r0 =>
    obtain ⟨crs⟩ := r0
    cases crs with
    | none => intro m hm; simp [vpaTargetFunc] at hm
    | some cs =>
      show familyAligned
        { metrics := (cs.map (fun c => vpaResourcesToMetrics c.containerName c.target)).flatten }
      exact familyAligned_flattenResources _ _ cs

/-- Helper: the uncapped-target extraction function is aligned. -/
theorem familyAligned_vpaUncappedTargetFunc (v : VerticalPodAutoscaler) :
    familyAligned (vpaUncappedTargetFunc v) := by
  obtain ⟨ns, nm, ann, lab, sp, ⟨rec⟩⟩ := v
  cases rec with
  | none => intro m hm; simp [vpaUncappedTargetFunc] at hm
  | some r0 =>
    obtain ⟨crs⟩ := r0
    cases crs with
    | none => intro m hm; simp [vpaUncappedTargetFunc] at hm
    | some cs =>
      show familyAligned
        { metrics := (cs.map (fun c => vpaResourcesToMetrics c.containerName c.uncappedTarget)).flatten }
      exact familyAligned_flattenResources _ _ cs

/-- Helper: computation rule of the wrapper on the expected variant. -/
theorem wrapVPAFunc_vpa (f : VerticalPodAutoscaler → Family) (v : VerticalPodAutoscaler) :
    wrapVPAFunc f (.vpa v) = Except.ok { metrics := (f v).metrics.map (wrapMetric v) } := rfl

/-- Helper: the wrapper preserves alignment. -/
theorem familyAligned_wrapVPAFunc {f : VerticalPodAutoscaler → Family}
    {v : VerticalPodAutoscaler} {fam : Family} (hf : familyAligned (f v))
    (h : wrapVPAFunc f (.vpa v) = Except.ok fam) : familyAligned fam := by
  rw [wrapVPAFunc_vpa] at h
  obtain rfl := Except.ok.inj h
  intro m hm
  simp only [List.mem_map] at hm
  obtain ⟨m0, hm0, rfl⟩ := hm
  have h0 := hf m0 hm0
  simp [wrapMetric, descVerticalPodAutoscalerLabelsDefaultLabels, h0]

/-- Helper: taking five elements of a list with at least five explicit
heads yields exactly those heads. -/
theorem take_five_cons (a b c d e : String) (rest : List String) :
    (a :: b :: c :: d :: e :: rest).take 5 = [a, b, c, d, e] := rfl

/-- C1: for every VerticalPodAutoscaler object and every generator of
`vpaMetricFamilies`, every emitted metric has as many label keys as
label values — both before the default-label wrapper runs (the nine
extraction functions) and after it (the registered generate functions). -/
theorem spec_C1 (allowAnnotationsList allowLabelsList : List String) :
    (∀ v : VerticalPodAutoscaler,
      familyAligned (vpaAnnotationsFunc allowAnnotationsList v) ∧
      familyAligned (vpaLabelsFunc allowLabelsList v) ∧
      familyAligned (vpaUpdateModeFunc v) ∧
      familyAligned (vpaMinAllowedFunc v) ∧
      familyAligned (vpaMaxAllowedFunc v) ∧
      familyAligned (vpaLowerBoundFunc v) ∧
      familyAligned (vpaUpperBoundFunc v) ∧
      familyAligned (vpaTargetFunc v) ∧
      familyAligned (vpaUncappedTargetFunc v)) ∧
    ∀ g ∈ vpaMetricFamilies allowAnnotationsList allowLabelsList,
      ∀ (obj : RuntimeObj) (fam : Family),
        g.generateFunc obj = Except.ok fam → familyAligned fam := by
  constructor
  · intro v
    exact ⟨familyAligned_vpaAnnotationsFunc _ v, familyAligned_vpaLabelsFunc _ v,
      familyAligned_vpaUpdateModeFunc v, familyAligned_vpaMinAllowedFunc v,
      familyAligned_vpaMaxAllowedFunc v, familyAligned_vpaLowerBoundFunc v,
      familyAligned_vpaUpperBoundFunc v, familyAligned_vpaTargetFunc v,
      familyAligned_vpaUncappedTargetFunc v⟩
  · intro g hg obj fam h
    simp only [vpaMetricFamilies, NewFamilyGenerator, List.mem_cons, List.not_mem_nil,
      or_false] at hg
    cases obj with
    | other t =>
      rcases hg with rfl | rfl | rfl | rfl | rfl | rfl | rfl | rfl | rfl <;>
        exact absurd h (by simp [wrapVPAFunc])
    | vpa v =>
      rcases hg with rfl | rfl | rfl | rfl | rfl | rfl | rfl | rfl | rfl
      · exact familyAligned_wrapVPAFunc (familyAligned_vpaAnnotationsFunc _ v) h
      · exact familyAligned_wrapVPAFunc (familyAligned_vpaLabelsFunc _ v) h
      · exact familyAligned_wrapVPAFunc (familyAligned_vpaUpdateModeFunc v) h
      · exact familyAligned_wrapVPAFunc (familyAligned_vpaMinAllowedFunc v) h
      · exact familyAligned_wrapVPAFunc (familyAligned_vpaMaxAllowedFunc v) h
      · exact familyAligned_wrapVPAFunc (familyAligned_vpaLowerBoundFunc v) h
      · exact familyAligned_wrapVPAFunc (familyAligned_vpaUpperBoundFunc v) h
      · exact familyAligned_wrapVPAFunc (familyAligned_vpaTargetFunc v) h
      · exact familyAligned_wrapVPAFunc (familyAligned_vpaUncappedTargetFunc v) h

/-- Witness for C1: the family the first registered generator emits for
the all-defaults object is aligned. -/
theorem spec_C1_witness : familyAligned witAnnotationsFam :=
  (spec_C1 [] []).2 ((vpaMetricFamilies [] []).get ⟨0, by decide⟩) (List.get_mem _ _ _)
    (RuntimeObj.vpa witVPA) witAnnotationsFam rfl

/-- C2: the wrapper prepends exactly the five default identifying label
keys at the leftmost positions of every metric's key sequence and the
five identifying values at the leftmost positions of its value sequence;
with a nil target reference the three target values are empty strings
rather than a failure. -/
theorem spec_C2 (f : VerticalPodAutoscaler → Family) (v : VerticalPodAutoscaler)
    (fam : Family) (h : wrapVPAFunc f (.vpa v) = Except.ok fam) :
    fam.metrics.length = (f v).metrics.length ∧
    (∀ i (hi : i < fam.metrics.length) (hi0 : i < (f v).metrics.length),
      fam.metrics[i].labelKeys =
        ["namespace", "verticalpodautoscaler", "target_api_version", "target_kind",
         "target_name"] ++ (f v).metrics[i].labelKeys ∧
      fam.metrics[i].labelValues =
        [v.namespaceName, v.name,
         (v.spec.targetRef.getD emptyCrossVersionObjectReference).apiVersion,
         (v.spec.targetRef.getD emptyCrossVersionObjectReference).kind,
         (v.spec.targetRef.getD emptyCrossVersionObjectReference).name] ++
          (f v).metrics[i].labelValues) ∧
    (v.spec.targetRef = none →
      ∀ m ∈ fam.metrics,
        m.labelValues.take 5 = [v.namespaceName, v.name, "", "", ""]) := by
  rw [wrapVPAFunc_vpa] at h
  obtain rfl := Except.ok.inj h
  refine ⟨by simp, ?_, ?_⟩
  · intro i hi hi0
    constructor
    · simp only [List.getElem_map]
      simp [wrapMetric, descVerticalPodAutoscalerLabelsDefaultLabels]
    · simp only [List.getElem_map]
      simp [wrapMetric]
  · intro htr m hm
    simp only [List.mem_map] at hm
    obtain ⟨m0, _, rfl⟩ := hm
    show ((wrapMetric v m0).labelValues).take 5 = _
    simp only [wrapMetric, htr, Option.getD_none, emptyCrossVersionObjectReference,
      List.cons_append, List.nil_append]
    exact take_five_cons _ _ _ _ _ _

/-- Witness for C2: for the all-defaults object the single annotations
metric starts with namespace, name and three empty target values. -/
theorem spec_C2_witness :
    (witAnnotationsFam.metrics.get ⟨0, by decide⟩).labelValues.take 5 =
      ["ns1", "vpa1", "", "", ""] := by
  have h := (spec_C2 (vpaAnnotationsFunc []) witVPA witAnnotationsFam rfl).2.2 rfl
  exact h _ (List.get_mem _ _ _)

/-- C6 (amended): an object that is not the expected concrete variant
makes the wrapped generate function fail with the Go type-assertion
panic (embedded as the error branch); it does not yield an empty family. -/
theorem spec_C6 (f : VerticalPodAutoscaler → Family) (tag : String) :
    wrapVPAFunc f (.other tag) = Except.error vpaTypeAssertionFailure := rfl

/-- Counterexample for C6 as stated: on a non-VerticalPodAutoscaler
object the wrapped function does not return the empty family the claim
promises — the bare type assertion in the code panics instead. -/
theorem spec_C6_counterexample :
    wrapVPAFunc vpaUpdateModeFunc (RuntimeObj.other "Pod") =
      Except.error vpaTypeAssertionFailure ∧
    wrapVPAFunc vpaUpdateModeFunc (RuntimeObj.other "Pod") ≠
      Except.ok { metrics := [] } :=
  ⟨rfl, fun h => Except.noConfusion h⟩

/-- C7: wrapping never changes a generator's declared name, help text or
kind — the registered triples equal the declared constants for every
configuration — and the wrapper changes neither the number of metrics in
a family nor any metric's numeric value. -/
theorem spec_C7 (allowAnnotationsList allowLabelsList : List String) :
    (vpaMetricFamilies allowAnnotationsList allowLabelsList).map
        (fun g => (g.name, g.help, g.type)) =
      [(descVerticalPodAutoscalerAnnotationsName,
        descVerticalPodAutoscalerAnnotationsHelp, metricGauge),
       (descVerticalPodAutoscalerLabelsName,
        descVerticalPodAutoscalerLabelsHelp, metricGauge),
       ("kube_verticalpodautoscaler_spec_updatepolicy_updatemode",
        "Update mode of the VerticalPodAutoscaler.", metricGauge),
       ("kube_verticalpodautoscaler_spec_resourcepolicy_container_policies_minallowed",
        "Minimum resources the VerticalPodAutoscaler can set for containers matching the name.",
        metricGauge),
       ("kube_verticalpodautoscaler_spec_resourcepolicy_container_policies_maxallowed",
        "Maximum resources the VerticalPodAutoscaler can set for containers matching the name.",
        metricGauge),
       ("kube_verticalpodautoscaler_status_recommendation_containerrecommendations_lowerbound",
        "Minimum resources the container can use before the VerticalPodAutoscaler updater evicts it.",
        metricGauge),
       ("kube_verticalpodautoscaler_status_recommendation_containerrecommendations_upperbound",
        "Maximum resources the container can use before the VerticalPodAutoscaler updater evicts it.",
        metricGauge),
       ("kube_verticalpodautoscaler_status_recommendation_containerrecommendations_target",
        "Target resources the VerticalPodAutoscaler recommends for the container.",
        metricGauge),
       ("kube_verticalpodautoscaler_status_recommendation_containerrecommendations_uncappedtarget",
        "Target resources the VerticalPodAutoscaler recommends for the container ignoring bounds.",
        metricGauge)] ∧
    ∀ (f : VerticalPodAutoscaler → Family) (v : VerticalPodAutoscaler) (fam : Family),
      wrapVPAFunc f (.vpa v) = Except.ok fam →
      fam.metrics.length = (f v).metrics.length ∧
      ∀ i (hi : i < fam.metrics.length) (hi0 : i < (f v).metrics.length),
        fam.metrics[i].value = (f v).metrics[i].value := by
  refine ⟨rfl, ?_⟩
  intro f v fam h
  rw [wrapVPAFunc_vpa] at h
  obtain rfl := Except.ok.inj h
  refine ⟨by simp, ?_⟩
  intro i hi hi0
  simp only [List.getElem_map]
  simp [wrapMetric]

/-- Witness for C7: the wrapper did not change the number of metrics of
the annotations family of the all-defaults object. -/
theorem spec_C7_witness :
    witAnnotationsFam.metrics.length = (vpaAnnotationsFunc [] witVPA).metrics.length :=
  ((spec_C7 [] []).2 (vpaAnnotationsFunc []) witVPA witAnnotationsFam rfl).1

/-- C8: the list and watch functions produced by the factory thread the
namespace and the per-call options to the backing client unchanged. -/
theorem spec_C8 (vpaClient : VPAClientsetInterface) (kubeClient : KubeClientset)
    (ns : String) (opts : ListOptions) :
    (createVPAListWatchFunc vpaClient kubeClient ns).listFunc opts =
      (vpaClient.autoscalingV1beta2.verticalPodAutoscalers ns).list opts ∧
    (createVPAListWatchFunc vpaClient kubeClient ns).watchFunc opts =
      (vpaClient.autoscalingV1beta2.verticalPodAutoscalers ns).watch opts :=
  ⟨rfl, rfl⟩

/-- Resource names covered by the `switch` of `vpaResourcesToMetrics`. -/
def recognizedVPAResource (name : String) : Bool :=
  name == resourceCPU ||
    (name == resourceStorage || name == resourceEphemeralStorage || name == resourceMemory)

/-- Helper: sanitizing "cpu" is the identity. -/
theorem sanitizeLabelName_cpu : sanitizeLabelName resourceCPU = "cpu" := by decide

/-- Helper: sanitizing "memory" is the identity. -/
theorem sanitizeLabelName_memory : sanitizeLabelName "memory" = "memory" := by decide

/-- Helper: sanitizing "storage" is the identity. -/
theorem sanitizeLabelName_storage : sanitizeLabelName "storage" = "storage" := by decide

/-- Helper: sanitizing "ephemeral-storage" replaces the hyphen. -/
theorem sanitizeLabelName_ephemeralStorage :
    sanitizeLabelName "ephemeral-storage" = "ephemeral_storage" := by decide

/-- Helper: a filter-map that never produces a value yields the empty list. -/
theorem filterMap_none_eq_nil {α β : Type} (l : List α) :
    l.filterMap (fun _ => (none : Option β)) = [] := by
  induction l <;> simp_all [List.filterMap_cons]

/-- Helper: conversion of a cpu entry. -/
theorem convertVPAResource_cpu (c : String) (q : Quantity) :
    convertVPAResource c (resourceCPU, q) =
      some ⟨[], [c, "cpu", "core"], (q.milliValue : ℚ) / 1000⟩ := by
  simp [convertVPAResource, sanitizeLabelName_cpu, unitCore]

/-- Helper: conversion of a memory entry. -/
theorem convertVPAResource_memory (c : String) (q : Quantity) :
    convertVPAResource c (resourceMemory, q) =
      some ⟨[], [c, "memory", "byte"], (q.value : ℚ)⟩ := by
  simp [convertVPAResource, sanitizeLabelName_memory, unitByte,
    resourceMemory, resourceCPU, resourceStorage, resourceEphemeralStorage]

/-- Helper: conversion of a storage entry. -/
theorem convertVPAResource_storage (c : String) (q : Quantity) :
    convertVPAResource c (resourceStorage, q) =
      some ⟨[], [c, "storage", "byte"], (q.value : ℚ)⟩ := by
  simp [convertVPAResource, sanitizeLabelName_storage, unitByte,
    resourceMemory, resourceCPU, resourceStorage, resourceEphemeralStorage]

/-- Helper: conversion of an ephemeral-storage entry. -/
theorem convertVPAResource_ephemeralStorage (c : String) (q : Quantity) :
    convertVPAResource c (resourceEphemeralStorage, q) =
      some ⟨[], [c, "ephemeral_storage", "byte"], (q.value : ℚ)⟩ := by
  simp [convertVPAResource, sanitizeLabelName_ephemeralStorage, unitByte,
    resourceMemory, resourceCPU, resourceStorage, resourceEphemeralStorage]

/-- Helper: an entry is converted exactly when its name is recognized. -/
theorem convertVPAResource_isSome (c : String) (rq : String × Quantity) :
    (convertVPAResource c rq).isSome = recognizedVPAResource rq.1 := by
  unfold convertVPAResource recognizedVPAResource
  split_ifs with h1 h2 <;> simp_all

/-- C3: `vpaResourcesToMetrics` emits one metric per recognized entry
only; a cpu quantity yields `MilliValue()/1000` with unit core; memory,
storage and ephemeral-storage quantities yield the exact integral value
with unit byte; unrecognized names are skipped; and the map
`(cpu: "500m", memory: "128Mi")` — MilliValue 500 and Value 134217728 —
yields exactly the two metrics with values one half and 134217728. -/
theorem spec_C3 (c : String) (res : ResourceList) :
    (vpaResourcesToMetrics c res).length =
      res.countP (fun rq => recognizedVPAResource rq.1) ∧
    (∀ q : Quantity, (resourceCPU, q) ∈ res →
      (⟨["container", "resource", "unit"], [c, "cpu", "core"],
        (q.milliValue : ℚ) / 1000⟩ : Metric) ∈ vpaResourcesToMetrics c res) ∧
    (∀ q : Quantity, (resourceMemory, q) ∈ res →
      (⟨["container", "resource", "unit"], [c, "memory", "byte"],
        (q.value : ℚ)⟩ : Metric) ∈ vpaResourcesToMetrics c res) ∧
    (∀ q : Quantity, (resourceStorage, q) ∈ res →
      (⟨["container", "resource", "unit"], [c, "storage", "byte"],
        (q.value : ℚ)⟩ : Metric) ∈ vpaResourcesToMetrics c res) ∧
    (∀ q : Quantity, (resourceEphemeralStorage, q) ∈ res →
      (⟨["container", "resource", "unit"], [c, "ephemeral_storage", "byte"],
        (q.value : ℚ)⟩ : Metric) ∈ vpaResourcesToMetrics c res) ∧
    vpaResourcesToMetrics "container1"
        [(resourceCPU, ⟨500, 1⟩), (resourceMemory, ⟨134217728000, 134217728⟩)] =
      [⟨["container", "resource", "unit"], ["container1", "cpu", "core"], 1 / 2⟩,
       ⟨["container", "resource", "unit"], ["container1", "memory", "byte"], 134217728⟩] := by
  refine ⟨?_, ?_, ?_, ?_, ?_, ?_⟩
  · unfold vpaResourcesToMetrics
    rw [List.length_map, List.length_filterMap_eq_countP]
    apply List.countP_congr
    intro rq _
    simp [convertVPAResource_isSome]
  · intro q hq
    have h0 : (⟨[], [c, "cpu", "core"], (q.milliValue : ℚ) / 1000⟩ : Metric) ∈
        res.filterMap (convertVPAResource c) :=
      List.mem_filterMap.mpr ⟨(resourceCPU, q), hq, convertVPAResource_cpu c q⟩
    exact List.mem_map_of_mem
      (fun m => { m with labelKeys := ["container", "resource", "unit"] }) h0
  · intro q hq
    have h0 : (⟨[], [c, "memory", "byte"], (q.value : ℚ)⟩ : Metric) ∈
        res.filterMap (convertVPAResource c) :=
      List.mem_filterMap.mpr ⟨(resourceMemory, q), hq, convertVPAResource_memory c q⟩
    exact List.mem_map_of_mem
      (fun m => { m with labelKeys := ["container", "resource", "unit"] }) h0
  · intro q hq
    have h0 : (⟨[], [c, "storage", "byte"], (q.value : ℚ)⟩ : Metric) ∈
        res.filterMap (convertVPAResource c) :=
      List.mem_filterMap.mpr ⟨(resourceStorage, q), hq, convertVPAResource_storage c q⟩
    exact List.mem_map_of_mem
      (fun m => { m with labelKeys := ["container", "resource", "unit"] }) h0
  · intro q hq
    have h0 : (⟨[], [c, "ephemeral_storage", "byte"], (q.value : ℚ)⟩ : Metric) ∈
        res.filterMap (convertVPAResource c) :=
      List.mem_filterMap.mpr
        ⟨(resourceEphemeralStorage, q), hq, convertVPAResource_ephemeralStorage c q⟩
    exact List.mem_map_of_mem
      (fun m => { m with labelKeys := ["container", "resource", "unit"] }) h0
  · simp only [vpaResourcesToMetrics, List.filterMap_cons, List.filterMap_nil,
      convertVPAResource_cpu, convertVPAResource_memory, List.map_cons, List.map_nil]
    norm_num

/-- Witness for C3: a one-entry memory map contains the converted
memory metric. -/
theorem spec_C3_witness :
    (⟨["container", "resource", "unit"], ["c1", "memory", "byte"],
      ((134217728 : Int) : ℚ)⟩ : Metric) ∈
      vpaResourcesToMetrics "c1" [(resourceMemory, ⟨134217728000, 134217728⟩)] :=
  (spec_C3 "c1" [(resourceMemory, ⟨134217728000, 134217728⟩)]).2.2.1
    ⟨134217728000, 134217728⟩ (by simp)

/-- C4: when an optional substructure is unset — update policy or its
mode, resource policy or its container policies, recommendation or its
container recommendations — the corresponding generators return a family
with zero metrics (wrapped in a successful result, never an error). -/
theorem spec_C4 (v : VerticalPodAutoscaler) :
    ((v.spec.updatePolicy = none ∨
        ∃ p, v.spec.updatePolicy = some p ∧ p.updateMode = none) →
      wrapVPAFunc vpaUpdateModeFunc (.vpa v) = Except.ok { metrics := [] }) ∧
    ((v.spec.resourcePolicy = none ∨
        ∃ rp, v.spec.resourcePolicy = some rp ∧ rp.containerPolicies = none) →
      wrapVPAFunc vpaMinAllowedFunc (.vpa v) = Except.ok { metrics := [] } ∧
      wrapVPAFunc vpaMaxAllowedFunc (.vpa v) = Except.ok { metrics := [] }) ∧
    ((v.status.recommendation = none ∨
        ∃ r, v.status.recommendation = some r ∧ r.containerRecommendations = none) →
      wrapVPAFunc vpaLowerBoundFunc (.vpa v) = Except.ok { metrics := [] } ∧
      wrapVPAFunc vpaUpperBoundFunc (.vpa v) = Except.ok { metrics := [] } ∧
      wrapVPAFunc vpaTargetFunc (.vpa v) = Except.ok { metrics := [] } ∧
      wrapVPAFunc vpaUncappedTargetFunc (.vpa v) = Except.ok { metrics := [] }) := by
  refine ⟨?_, ?_, ?_⟩
  · rintro (h | ⟨p, hp, hm⟩) <;>
      simp [wrapVPAFunc_vpa, vpaUpdateModeFunc, *]
  · rintro (h | ⟨rp, hp, hm⟩) <;>
      constructor <;>
        simp [wrapVPAFunc_vpa, vpaMinAllowedFunc, vpaMaxAllowedFunc, *]
  · rintro (h | ⟨r, hp, hm⟩) <;>
      refine ⟨?_, ?_, ?_, ?_⟩ <;>
        simp [wrapVPAFunc_vpa, vpaLowerBoundFunc, vpaUpperBoundFunc, vpaTargetFunc,
          vpaUncappedTargetFunc, *]

/-- Witness for C4: the all-defaults object yields empty families from
the update-mode, min-allowed and lower-bound generators. -/
theorem spec_C4_witness :
    wrapVPAFunc vpaUpdateModeFunc (.vpa witVPA) = Except.ok { metrics := [] } ∧
    wrapVPAFunc vpaMinAllowedFunc (.vpa witVPA) = Except.ok { metrics := [] } ∧
    wrapVPAFunc vpaLowerBoundFunc (.vpa witVPA) = Except.ok { metrics := [] } :=
  ⟨(spec_C4 witVPA).1 (Or.inl rfl), ((spec_C4 witVPA).2.1 (Or.inl rfl)).1,
    ((spec_C4 witVPA).2.2 (Or.inl rfl)).1⟩

/-- C9: with an update policy and mode set, the update-mode extraction
function emits exactly four metrics in the fixed order Off, Initial,
Recreate, Auto, each with the single key update_mode and the mode name
as value; the numeric value is 1 exactly on the matching mode, so at
most one metric carries 1, and all four carry 0 for a mode outside the
enumerated set. -/
theorem spec_C9 (v : VerticalPodAutoscaler) (p : PodUpdatePolicy) (um : String)
    (h1 : v.spec.updatePolicy = some p) (h2 : p.updateMode = some um) :
    (vpaUpdateModeFunc v).metrics =
      [updateModeOff, updateModeInitial, updateModeRecreate, updateModeAuto].map
        (fun mode => ⟨["update_mode"], [mode], if um = mode then 1 else 0⟩) ∧
    (vpaUpdateModeFunc v).metrics.countP (fun m => m.value == 1) ≤ 1 ∧
    (um ∉ [updateModeOff, updateModeInitial, updateModeRecreate, updateModeAuto] →
      ∀ m ∈ (vpaUpdateModeFunc v).metrics, m.value = 0) := by
  have he : (vpaUpdateModeFunc v).metrics =
      [updateModeOff, updateModeInitial, updateModeRecreate, updateModeAuto].map
        (fun mode => ⟨["update_mode"], [mode], if um = mode then 1 else 0⟩) := by
    simp [vpaUpdateModeFunc, h1, h2]
  have h01 : ((0 : ℚ) == 1) = false := by
    rw [beq_eq_false_iff_ne]
    norm_num
  have h11 : ((1 : ℚ) == 1) = true := beq_self_eq_true 1
  refine ⟨he, ?_, ?_⟩
  · rw [he]
    by_cases hOff : um = updateModeOff
    · subst hOff
      simp [updateModeOff, updateModeInitial, updateModeRecreate, updateModeAuto,
        List.countP_cons, List.countP_nil, h01, h11]
    · by_cases hIn : um = updateModeInitial
      · subst hIn
        simp [updateModeOff, updateModeInitial, updateModeRecreate, updateModeAuto,
          List.countP_cons, List.countP_nil, h01, h11]
      · by_cases hRe : um = updateModeRecreate
        · subst hRe
          simp [updateModeOff, updateModeInitial, updateModeRecreate, updateModeAuto,
            List.countP_cons, List.countP_nil, h01, h11]
        · by_cases hAu : um = updateModeAuto
          · subst hAu
            simp [updateModeOff, updateModeInitial, updateModeRecreate, updateModeAuto,
              List.countP_cons, List.countP_nil, h01, h11]
          · simp [hOff, hIn, hRe, hAu, List.countP_cons, List.countP_nil, h01]
  · intro hnotin m hm
    rw [he] at hm
    simp only [List.mem_cons, List.not_mem_nil, or_false] at hnotin
    push_neg at hnotin
    obtain ⟨hOff, hIn, hRe, hAu⟩ := hnotin
    simp only [List.map_cons, List.map_nil, List.mem_cons, List.not_mem_nil, or_false,
      if_neg hOff, if_neg hIn, if_neg hRe, if_neg hAu] at hm
    rcases hm with rfl | rfl | rfl | rfl <;> rfl

/-- Object with update mode Auto, used by the C9 witness. -/
def witVPAAuto : VerticalPodAutoscaler :=
  { namespaceName := "ns1", name := "vpa1", annotations := [], labels := [],
    spec := { targetRef := none, updatePolicy := some { updateMode := some updateModeAuto },
              resourcePolicy := none },
    status := { recommendation := none } }

/-- Witness for C9: with mode Auto at most one of the four metrics
carries value 1. -/
theorem spec_C9_witness :
    (vpaUpdateModeFunc witVPAAuto).metrics.countP (fun m => m.value == 1) ≤ 1 :=
  (spec_C9 witVPAAuto { updateMode := some updateModeAuto } updateModeAuto rfl rfl).2.1

/-- Helper: the label composer yields two empty sequences when the map
is empty or the allow-list is empty. -/
theorem createPrometheusLabelKeysValues_nil (pfx : String)
    (m : List (String × String)) (allowList : List String)
    (h : m = [] ∨ allowList = []) :
    createPrometheusLabelKeysValues pfx m allowList = ([], []) := by
  rcases h with rfl | rfl
  · by_cases hw : allowList = ["*"] <;>
      simp [createPrometheusLabelKeysValues, hw, dedupByKey, List.lookup,
        filterMap_none_eq_nil]
  · simp [createPrometheusLabelKeysValues, dedupByKey]

/-- C10: the annotations generator and the labels generator always
return exactly one metric with numeric value 1, for every object and
allow-lists; when the object's map is empty (or the allow-list is empty)
the metric carries only the prepended default identifying labels. -/
theorem spec_C10 (allowAnnotationsList allowLabelsList : List String)
    (v : VerticalPodAutoscaler) :
    (∀ fam, wrapVPAFunc (vpaAnnotationsFunc allowAnnotationsList) (.vpa v) = Except.ok fam →
      fam.metrics.length = 1 ∧ ∀ m ∈ fam.metrics, m.value = 1) ∧
    (∀ fam, wrapVPAFunc (vpaLabelsFunc allowLabelsList) (.vpa v) = Except.ok fam →
      fam.metrics.length = 1 ∧ ∀ m ∈ fam.metrics, m.value = 1) ∧
    (v.annotations = [] ∨ allowAnnotationsList = [] →
      ∀ fam, wrapVPAFunc (vpaAnnotationsFunc allowAnnotationsList) (.vpa v) = Except.ok fam →
        ∀ m ∈ fam.metrics, m.labelKeys = descVerticalPodAutoscalerLabelsDefaultLabels) ∧
    (v.labels = [] ∨ allowLabelsList = [] →
      ∀ fam, wrapVPAFunc (vpaLabelsFunc allowLabelsList) (.vpa v) = Except.ok fam →
        ∀ m ∈ fam.metrics, m.labelKeys = descVerticalPodAutoscalerLabelsDefaultLabels) := by
  refine ⟨?_, ?_, ?_, ?_⟩
  · intro fam h
    rw [wrapVPAFunc_vpa] at h
    obtain rfl := Except.ok.inj h
    refine ⟨by simp [vpaAnnotationsFunc], ?_⟩
    intro m hm
    simp only [vpaAnnotationsFunc, List.map_cons, List.map_nil, List.mem_cons,
      List.not_mem_nil, or_false] at hm
    subst hm
    rfl
  · intro fam h
    rw [wrapVPAFunc_vpa] at h
    obtain rfl := Except.ok.inj h
    refine ⟨by simp [vpaLabelsFunc], ?_⟩
    intro m hm
    simp only [vpaLabelsFunc, List.map_cons, List.map_nil, List.mem_cons,
      List.not_mem_nil, or_false] at hm
    subst hm
    rfl
  · intro hemp fam h
    rw [wrapVPAFunc_vpa] at h
    obtain rfl := Except.ok.inj h
    intro m hm
    simp only [vpaAnnotationsFunc, createPrometheusLabelKeysValues_nil _ _ _ hemp,
      List.map_cons, List.map_nil, List.mem_cons, List.not_mem_nil, or_false] at hm
    subst hm
    simp [wrapMetric]
  · intro hemp fam h
    rw [wrapVPAFunc_vpa] at h
    obtain rfl := Except.ok.inj h
    intro m hm
    simp only [vpaLabelsFunc, createPrometheusLabelKeysValues_nil _ _ _ hemp,
      List.map_cons, List.map_nil, List.mem_cons, List.not_mem_nil, or_false] at hm
    subst hm
    simp [wrapMetric]

/-- Witness for C10: the annotations family of the all-defaults object
has exactly one metric. -/
theorem spec_C10_witness : witAnnotationsFam.metrics.length = 1 :=
  ((spec_C10 [] [] witVPA).1 witAnnotationsFam rfl).1

/-- Relational lifting of a binary relation to options: both absent, or
both present and related. -/
def OptionRel {α : Type} (R : α → α → Prop) : Option α → Option α → Prop
  | none, none => True
  | some a, some b => R a b
  | _, _ => False

/-- Container policies describing the same Go map data: equal names and
resource maps that are permutations of one another (a Go map enumerates
in unspecified order). -/
def ContainerPolicyEquiv (c1 c2 : ContainerResourcePolicy) : Prop :=
  c1.containerName = c2.containerName ∧ c1.minAllowed.Perm c2.minAllowed ∧
    c1.maxAllowed.Perm c2.maxAllowed

/-- Container recommendations describing the same Go map data. -/
def ContainerRecommendationEquiv (c1 c2 : RecommendedContainerResources) : Prop :=
  c1.containerName = c2.containerName ∧ c1.target.Perm c2.target ∧
    c1.lowerBound.Perm c2.lowerBound ∧ c1.upperBound.Perm c2.upperBound ∧
    c1.uncappedTarget.Perm c2.uncappedTarget

/-- Two embedded objects representing the same VerticalPodAutoscaler
snapshot: all fields equal except that every embedded Go map — the
annotations and labels maps as well as each resource map — may be
enumerated in a different order. -/
def VPASnapshotEquiv (v1 v2 : VerticalPodAutoscaler) : Prop :=
  v1.namespaceName = v2.namespaceName ∧ v1.name = v2.name ∧
  v1.annotations.Perm v2.annotations ∧ v1.labels.Perm v2.labels ∧
  v1.spec.targetRef = v2.spec.targetRef ∧ v1.spec.updatePolicy = v2.spec.updatePolicy ∧
  OptionRel (fun p1 p2 => OptionRel (List.Forall₂ ContainerPolicyEquiv)
    p1.containerPolicies p2.containerPolicies) v1.spec.resourcePolicy v2.spec.resourcePolicy ∧
  OptionRel (fun r1 r2 => OptionRel (List.Forall₂ ContainerRecommendationEquiv)
    r1.containerRecommendations r2.containerRecommendations)
    v1.status.recommendation v2.status.recommendation

/-- Generator outputs that agree up to the order of metrics within a
family (or fail identically). -/
def FamilyOutputPerm : Except String Family → Except String Family → Prop
  | Except.ok f1, Except.ok f2 => f1.metrics.Perm f2.metrics
  | Except.error e1, Except.error e2 => e1 = e2
  | _, _ => False

/-- Helper: a permutation of the resource map permutes the converted
metrics. -/
theorem vpaResourcesToMetrics_perm (c : String) {r1 r2 : ResourceList} (h : r1.Perm r2) :
    (vpaResourcesToMetrics c r1).Perm (vpaResourcesToMetrics c r2) :=
  (h.filterMap _).map _

/-- Helper: mapping two functions over pointwise-related lists yields
pointwise-related images. -/
theorem forall2_map_map {α β : Type} {R : α → α → Prop} {S : β → β → Prop}
    (f g : α → β) (hfg : ∀ a b, R a b → S (f a) (g b)) :
    ∀ {l1 l2 : List α}, List.Forall₂ R l1 l2 → List.Forall₂ S (l1.map f) (l2.map g)
  | _, _, List.Forall₂.nil => List.Forall₂.nil
  | _, _, List.Forall₂.cons h t => List.Forall₂.cons (hfg _ _ h) (forall2_map_map f g hfg t)

/-- Helper: per-container conversion of equivalent policy lists gives
permuted concatenations. -/
theorem flattenPolicyMetrics_perm (sel : ContainerResourcePolicy → ResourceList)
    (hsel : ∀ c1 c2, ContainerPolicyEquiv c1 c2 → (sel c1).Perm (sel c2))
    {cs1 cs2 : List ContainerResourcePolicy}
    (h : List.Forall₂ ContainerPolicyEquiv cs1 cs2) :
    ((cs1.map (fun c => vpaResourcesToMetrics c.containerName (sel c))).flatten).Perm
      ((cs2.map (fun c => vpaResourcesToMetrics c.containerName (sel c))).flatten) := by
  apply List.Perm.flatten_congr
  refine forall2_map_map _ _ ?_ h
  intro c1 c2 hc
  rw [hc.1]
  exact vpaResourcesToMetrics_perm _ (hsel c1 c2 hc)

/-- Helper: per-container conversion of equivalent recommendation lists
gives permuted concatenations. -/
theorem flattenRecommendationMetrics_perm (sel : RecommendedContainerResources → ResourceList)
    (hsel : ∀ c1 c2, ContainerRecommendationEquiv c1 c2 → (sel c1).Perm (sel c2))
    {cs1 cs2 : List RecommendedContainerResources}
    (h : List.Forall₂ ContainerRecommendationEquiv cs1 cs2) :
    ((cs1.map (fun c => vpaResourcesToMetrics c.containerName (sel c))).flatten).Perm
      ((cs2.map (fun c => vpaResourcesToMetrics c.containerName (sel c))).flatten) := by
  apply List.Perm.flatten_congr
  refine forall2_map_map _ _ ?_ h
  intro c1 c2 hc
  rw [hc.1]
  exact vpaResourcesToMetrics_perm _ (hsel c1 c2 hc)

/-- Helper: appending to a fixed string on the left is injective. -/
theorem string_append_left_cancel {a s t : String} (h : a ++ s = a ++ t) : s = t := by
  have hd : (a ++ s).data = (a ++ t).data := congrArg String.data h
  simp only [String.data_append] at hd
  have hst := List.append_cancel_left hd
  cases s
  cases t
  exact congrArg String.mk hst

/-- Helper: lookup in an association list with distinct keys does not
depend on the enumeration order. -/
theorem lookup_eq_of_perm {m1 m2 : List (String × String)} (hp : m1.Perm m2) :
    (m1.map Prod.fst).Nodup → ∀ k : String, m1.lookup k = m2.lookup k := by
  induction hp with
  | nil => intro _ k; rfl
  | cons x t ih =>
    intro hnd k
    obtain ⟨xk, xv⟩ := x
    simp only [List.map_cons, List.nodup_cons] at hnd
    by_cases hk : (k == xk) = true
    · simp [List.lookup, hk]
    · rw [Bool.not_eq_true] at hk
      simp [List.lookup, hk, ih hnd.2 k]
  | swap x y l =>
    intro hnd k
    obtain ⟨xk, xv⟩ := x
    obtain ⟨yk, yv⟩ := y
    simp only [List.map_cons, List.nodup_cons, List.mem_cons] at hnd
    by_cases h1 : (k == yk) = true
    · by_cases h2 : (k == xk) = true
      · have e1 : k = yk := by simpa using h1
        have e2 : k = xk := by simpa using h2
        exact absurd (Or.inl (e1.symm.trans e2)) hnd.1
      · rw [Bool.not_eq_true] at h2
        simp [List.lookup, h1, h2]
    · rw [Bool.not_eq_true] at h1
      by_cases h2 : (k == xk) = true
      · simp [List.lookup, h1, h2]
      · rw [Bool.not_eq_true] at h2
        simp [List.lookup, h1, h2]
  | trans p1 p2 ih1 ih2 =>
    intro hnd k
    rw [ih1 hnd k, ih2 (((p1.map Prod.fst).nodup_iff).mp hnd) k]

/-- Helper: distinct sanitized keys imply distinct original keys. -/
theorem nodup_fst_of_sanitized {m : List (String × String)}
    (hnd : (m.map (fun kv => sanitizeLabelName kv.1)).Nodup) :
    (m.map Prod.fst).Nodup := by
  have he : m.map (fun kv => sanitizeLabelName kv.1) =
      (m.map Prod.fst).map sanitizeLabelName := by
    simp [List.map_map, Function.comp]
  rw [he] at hnd
  exact hnd.of_map

/-- Helper: distinct sanitized keys stay distinct after the key-namespace
prefix is appended. -/
theorem prefixedKeys_nodup (pfx : String) {m : List (String × String)}
    (hnd : (m.map (fun kv => sanitizeLabelName kv.1)).Nodup) :
    (m.map (fun kv => pfx ++ "_" ++ sanitizeLabelName kv.1)).Nodup := by
  have he : m.map (fun kv => pfx ++ "_" ++ sanitizeLabelName kv.1) =
      (m.map (fun kv => sanitizeLabelName kv.1)).map (fun s => pfx ++ "_" ++ s) := by
    simp [List.map_map, Function.comp]
  rw [he]
  exact hnd.map fun s t h => string_append_left_cancel h

/-- Helper: sorting two enumerations of the same key-value data by key
yields the same list when the keys are pairwise distinct (with equal
keys the stable sort would preserve the unspecified enumeration order
instead). -/
theorem mergeSort_keyed_eq {l1 l2 : List (String × String)} (hp : l1.Perm l2)
    (hnd : (l1.map Prod.fst).Nodup) :
    l1.mergeSort (fun a b => decide (a.1 ≤ b.1)) =
      l2.mergeSort (fun a b => decide (a.1 ≤ b.1)) := by
  have htrans : ∀ (a b c : String × String),
      decide (a.1 ≤ b.1) = true → decide (b.1 ≤ c.1) = true →
      decide (a.1 ≤ c.1) = true := by
    intro a b c hab hbc
    rw [decide_eq_true_eq] at *
    exact le_trans hab hbc
  have htotal : ∀ (a b : String × String),
      (decide (a.1 ≤ b.1) || decide (b.1 ≤ a.1)) = true := by
    intro a b
    simp only [Bool.or_eq_true, decide_eq_true_eq]
    exact le_total a.1 b.1
  have hperm : (l1.mergeSort (fun a b => decide (a.1 ≤ b.1))).Perm
      (l2.mergeSort (fun a b => decide (a.1 ≤ b.1))) :=
    (List.mergeSort_perm l1 _).trans (hp.trans (List.mergeSort_perm l2 _).symm)
  have hstrict : ∀ l : List (String × String), l.Perm l1 →
      (l.mergeSort (fun a b => decide (a.1 ≤ b.1))).Pairwise (fun a b => a.1 < b.1) := by
    intro l hl
    have hs := List.sorted_mergeSort htrans htotal l
    have hndl : ((l.mergeSort (fun a b => decide (a.1 ≤ b.1))).map Prod.fst).Nodup :=
      (((List.mergeSort_perm l _).trans hl).map Prod.fst).nodup_iff.mpr hnd
    have hne : (l.mergeSort (fun a b => decide (a.1 ≤ b.1))).Pairwise
        (fun a b => a.1 ≠ b.1) := List.pairwise_map.mp hndl
    exact (hs.and hne).imp fun hab =>
      lt_of_le_of_ne (by simpa using hab.1) hab.2
  haveI : IsAntisymm (String × String) (fun a b => a.1 < b.1) :=
    ⟨fun a b h1 h2 => absurd h2 (lt_asymm h1)⟩
  exact List.eq_of_perm_of_sorted hperm (hstrict l1 (List.Perm.refl l1)) (hstrict l2 hp.symm)

/-- Helper: the label composer is invariant under re-enumeration of the
source map as long as the sanitized keys are pairwise distinct; with a
sanitization collision the wildcard path's first-seen-wins resolution
would depend on the enumeration order instead. -/
theorem createPrometheusLabelKeysValues_perm (pfx : String)
    {m1 m2 : List (String × String)} (hp : m1.Perm m2)
    (hnd : (m1.map (fun kv => sanitizeLabelName kv.1)).Nodup)
    (allowList : List String) :
    createPrometheusLabelKeysValues pfx m1 allowList =
      createPrometheusLabelKeysValues pfx m2 allowList := by
  by_cases hw : allowList = ["*"]
  · subst hw
    have hndpre : ((m1.map (fun kv => (pfx ++ "_" ++ sanitizeLabelName kv.1, kv.2))).map
        Prod.fst).Nodup := by
      have he : (m1.map (fun kv => (pfx ++ "_" ++ sanitizeLabelName kv.1, kv.2))).map
          Prod.fst = m1.map (fun kv => pfx ++ "_" ++ sanitizeLabelName kv.1) := by
        simp [List.map_map, Function.comp]
      rw [he]
      exact prefixedKeys_nodup pfx hnd
    have hkey := mergeSort_keyed_eq
      (hp.map (fun kv => (pfx ++ "_" ++ sanitizeLabelName kv.1, kv.2))) hndpre
    unfold createPrometheusLabelKeysValues
    simp only [reduceIte]
    rw [hkey]
  · have hfun : (fun k => (m1.lookup k).map
        (fun v => (pfx ++ "_" ++ sanitizeLabelName k, v))) =
        (fun k => (m2.lookup k).map
          (fun v => (pfx ++ "_" ++ sanitizeLabelName k, v))) :=
      funext fun k => by rw [lookup_eq_of_perm hp (nodup_fst_of_sanitized hnd) k]
    simp [createPrometheusLabelKeysValues, hw, hfun]

/-- Helper: the annotations extraction only reads the annotations map,
and is invariant under its re-enumeration when the sanitized annotation
keys are distinct. -/
theorem vpaAnnotationsFunc_eq (aL : List String) {v1 v2 : VerticalPodAutoscaler}
    (h : v1.annotations.Perm v2.annotations)
    (hnd : (v1.annotations.map (fun kv => sanitizeLabelName kv.1)).Nodup) :
    vpaAnnotationsFunc aL v1 = vpaAnnotationsFunc aL v2 := by
  simp [vpaAnnotationsFunc, createPrometheusLabelKeysValues_perm "annotation" h hnd aL]

/-- Helper: the labels extraction only reads the labels map, and is
invariant under its re-enumeration when the sanitized label keys are
distinct. -/
theorem vpaLabelsFunc_eq (lL : List String) {v1 v2 : VerticalPodAutoscaler}
    (h : v1.labels.Perm v2.labels)
    (hnd : (v1.labels.map (fun kv => sanitizeLabelName kv.1)).Nodup) :
    vpaLabelsFunc lL v1 = vpaLabelsFunc lL v2 := by
  simp [vpaLabelsFunc, createPrometheusLabelKeysValues_perm "label" h hnd lL]

/-- Helper: the update-mode extraction only reads the update policy. -/
theorem vpaUpdateModeFunc_eq {v1 v2 : VerticalPodAutoscaler}
    (h : v1.spec.updatePolicy = v2.spec.updatePolicy) :
    vpaUpdateModeFunc v1 = vpaUpdateModeFunc v2 := by
  simp only [vpaUpdateModeFunc, h]

/-- Shape of the resource-policy component of a snapshot equivalence. -/
def ResourcePolicyRel (o1 o2 : Option PodResourcePolicy) : Prop :=
  OptionRel (fun p1 p2 => OptionRel (List.Forall₂ ContainerPolicyEquiv)
    p1.containerPolicies p2.containerPolicies) o1 o2

/-- Shape of the recommendation component of a snapshot equivalence. -/
def RecommendationRel (o1 o2 : Option RecommendedPodResources) : Prop :=
  OptionRel (fun r1 r2 => OptionRel (List.Forall₂ ContainerRecommendationEquiv)
    r1.containerRecommendations r2.containerRecommendations) o1 o2

/-- Helper: the minallowed extraction commutes with resource-map
reordering. -/
theorem vpaMinAllowedFunc_perm {v1 v2 : VerticalPodAutoscaler}
    (h : ResourcePolicyRel v1.spec.resourcePolicy v2.spec.resourcePolicy) :
    (vpaMinAllowedFunc v1).metrics.Perm (vpaMinAllowedFunc v2).metrics := by
  unfold ResourcePolicyRel at h
  cases h1 : v1.spec.resourcePolicy with
  | none =>
    cases h2 : v2.spec.resourcePolicy with
    | none => simp only [vpaMinAllowedFunc, h1, h2]; exact List.Perm.rfl
    | some rp2 => rw [h1, h2] at h; exact h.elim
  | some rp1 =>
    cases h2 : v2.spec.resourcePolicy with
    | none => rw [h1, h2] at h; exact h.elim
    | some rp2 =>
      rw [h1, h2] at h
      replace h : OptionRel (List.Forall₂ ContainerPolicyEquiv)
        rp1.containerPolicies rp2.containerPolicies := h
      simp only [vpaMinAllowedFunc, h1, h2]
      cases hc1 : rp1.containerPolicies with
      | none =>
        cases hc2 : rp2.containerPolicies with
        | none => exact List.Perm.rfl
        | some cs2 => rw [hc1, hc2] at h; exact h.elim
      | some cs1 =>
        cases hc2 : rp2.containerPolicies with
        | none => rw [hc1, hc2] at h; exact h.elim
        | some cs2 =>
          rw [hc1, hc2] at h
          exact flattenPolicyMetrics_perm (fun c => c.minAllowed)
            (fun c1 c2 hc => hc.2.1) h

/-- Helper: the maxallowed extraction commutes with resource-map
reordering. -/
theorem vpaMaxAllowedFunc_perm {v1 v2 : VerticalPodAutoscaler}
    (h : ResourcePolicyRel v1.spec.resourcePolicy v2.spec.resourcePolicy) :
    (vpaMaxAllowedFunc v1).metrics.Perm (vpaMaxAllowedFunc v2).metrics := by
  unfold ResourcePolicyRel at h
  cases h1 : v1.spec.resourcePolicy with
  | none =>
    cases h2 : v2.spec.resourcePolicy with
    | none => simp only [vpaMaxAllowedFunc, h1, h2]; exact List.Perm.rfl
    | some rp2 => rw [h1, h2] at h; exact h.elim
  | some rp1 =>
    cases h2 : v2.spec.resourcePolicy with
    | none => rw [h1, h2] at h; exact h.elim
    | some rp2 =>
      rw [h1, h2] at h
      replace h : OptionRel (List.Forall₂ ContainerPolicyEquiv)
        rp1.containerPolicies rp2.containerPolicies := h
      simp only [vpaMaxAllowedFunc, h1, h2]
      cases hc1 : rp1.containerPolicies with
      | none =>
        cases hc2 : rp2.containerPolicies with
        | none => exact List.Perm.rfl
        | some cs2 => rw [hc1, hc2] at h; exact h.elim
      | some cs1 =>
        cases hc2 : rp2.containerPolicies with
        | none => rw [hc1, hc2] at h; exact h.elim
        | some cs2 =>
          rw [hc1, hc2] at h
          exact flattenPolicyMetrics_perm (fun c => c.maxAllowed)
            (fun c1 c2 hc => hc.2.2) h

/-- Helper: the lowerbound extraction commutes with resource-map
reordering. -/
theorem vpaLowerBoundFunc_perm {v1 v2 : VerticalPodAutoscaler}
    (h : RecommendationRel v1.status.recommendation v2.status.recommendation) :
    (vpaLowerBoundFunc v1).metrics.Perm (vpaLowerBoundFunc v2).metrics := by
  unfold RecommendationRel at h
  cases h1 : v1.status.recommendation with
  | none =>
    cases h2 : v2.status.recommendation with
    | none => simp only [vpaLowerBoundFunc, h1, h2]; exact List.Perm.rfl
    | some r2 => rw [h1, h2] at h; exact h.elim
  | some r1 =>
    cases h2 : v2.status.recommendation with
    | none => rw [h1, h2] at h; exact h.elim
    | some r2 =>
      rw [h1, h2] at h
      replace h : OptionRel (List.Forall₂ ContainerRecommendationEquiv)
        r1.containerRecommendations r2.containerRecommendations := h
      simp only [vpaLowerBoundFunc, h1, h2]
      cases hc1 : r1.containerRecommendations with
      | none =>
        cases hc2 : r2.containerRecommendations with
        | none => exact List.Perm.rfl
        | some cs2 => rw [hc1, hc2] at h; exact h.elim
      | some cs1 =>
        cases hc2 : r2.containerRecommendations with
        | none => rw [hc1, hc2] at h; exact h.elim
        | some cs2 =>
          rw [hc1, hc2] at h
          exact flattenRecommendationMetrics_perm (fun c => c.lowerBound)
            (fun c1 c2 hc => hc.2.2.1) h

/-- Helper: the upperbound extraction commutes with resource-map
reordering. -/
theorem vpaUpperBoundFunc_perm {v1 v2 : VerticalPodAutoscaler}
    (h : RecommendationRel v1.status.recommendation v2.status.recommendation) :
    (vpaUpperBoundFunc v1).metrics.Perm (vpaUpperBoundFunc v2).metrics := by
  unfold RecommendationRel at h
  cases h1 : v1.status.recommendation with
  | none =>
    cases h2 : v2.status.recommendation with
    | none => simp only [vpaUpperBoundFunc, h1, h2]; exact List.Perm.rfl
    | some r2 => rw [h1, h2] at h; exact h.elim
  | some r1 =>
    cases h2 : v2.status.recommendation with
    | none => rw [h1, h2] at h; exact h.elim
    | some r2 =>
      rw [h1, h2] at h
      replace h : OptionRel (List.Forall₂ ContainerRecommendationEquiv)
        r1.containerRecommendations r2.containerRecommendations := h
      simp only [vpaUpperBoundFunc, h1, h2]
      cases hc1 : r1.containerRecommendations with
      | none =>
        cases hc2 : r2.containerRecommendations with
        | none => exact List.Perm.rfl
        | some cs2 => rw [hc1, hc2] at h; exact h.elim
      | some cs1 =>
        cases hc2 : r2.containerRecommendations with
        | none => rw [hc1, hc2] at h; exact h.elim
        | some cs2 =>
          rw [hc1, hc2] at h
          exact flattenRecommendationMetrics_perm (fun c => c.upperBound)
            (fun c1 c2 hc => hc.2.2.2.1) h

/-- Helper: the target extraction commutes with resource-map
reordering. -/
theorem vpaTargetFunc_perm {v1 v2 : VerticalPodAutoscaler}
    (h : RecommendationRel v1.status.recommendation v2.status.recommendation) :
    (vpaTargetFunc v1).metrics.Perm (vpaTargetFunc v2).metrics := by
  unfold RecommendationRel at h
  cases h1 : v1.status.recommendation with
  | none =>
    cases h2 : v2.status.recommendation with
    | none => simp only [vpaTargetFunc, h1, h2]; exact List.Perm.rfl
    | some r2 => rw [h1, h2] at h; exact h.elim
  | some r1 =>
    cases h2 : v2.status.recommendation with
    | none => rw [h1, h2] at h; exact h.elim
    | some r2 =>
      rw [h1, h2] at h
      replace h : OptionRel (List.Forall₂ ContainerRecommendationEquiv)
        r1.containerRecommendations r2.containerRecommendations := h
      simp only [vpaTargetFunc, h1, h2]
      cases hc1 : r1.containerRecommendations with
      | none =>
        cases hc2 : r2.containerRecommendations with
        | none => exact List.Perm.rfl
        | some cs2 => rw [hc1, hc2] at h; exact h.elim
      | some cs1 =>
        cases hc2 : r2.containerRecommendations with
        | none => rw [hc1, hc2] at h; exact h.elim
        | some cs2 =>
          rw [hc1, hc2] at h
          exact flattenRecommendationMetrics_perm (fun c => c.target)
            (fun c1 c2 hc => hc.2.1) h

/-- Helper: the uncappedtarget extraction commutes with resource-map
reordering. -/
theorem vpaUncappedTargetFunc_perm {v1 v2 : VerticalPodAutoscaler}
    (h : RecommendationRel v1.status.recommendation v2.status.recommendation) :
    (vpaUncappedTargetFunc v1).metrics.Perm (vpaUncappedTargetFunc v2).metrics := by
  unfold RecommendationRel at h
  cases h1 : v1.status.recommendation with
  | none =>
    cases h2 : v2.status.recommendation with
    | none => simp only [vpaUncappedTargetFunc, h1, h2]; exact List.Perm.rfl
    | some r2 => rw [h1, h2] at h; exact h.elim
  | some r1 =>
    cases h2 : v2.status.recommendation with
    | none => rw [h1, h2] at h; exact h.elim
    | some r2 =>
      rw [h1, h2] at h
      replace h : OptionRel (List.Forall₂ ContainerRecommendationEquiv)
        r1.containerRecommendations r2.containerRecommendations := h
      simp only [vpaUncappedTargetFunc, h1, h2]
      cases hc1 : r1.containerRecommendations with
      | none =>
        cases hc2 : r2.containerRecommendations with
        | none => exact List.Perm.rfl
        | some cs2 => rw [hc1, hc2] at h; exact h.elim
      | some cs1 =>
        cases hc2 : r2.containerRecommendations with
        | none => rw [hc1, hc2] at h; exact h.elim
        | some cs2 =>
          rw [hc1, hc2] at h
          exact flattenRecommendationMetrics_perm (fun c => c.uncappedTarget)
            (fun c1 c2 hc => hc.2.2.2.2) h

/-- Helper: the wrapper turns permuted inner families over equivalent
identifying data into permuted wrapped families. -/
theorem wrapVPAFunc_perm {f1 f2 : VerticalPodAutoscaler → Family}
    {v1 v2 : VerticalPodAutoscaler}
    (hns : v1.namespaceName = v2.namespaceName) (hn : v1.name = v2.name)
    (ht : v1.spec.targetRef = v2.spec.targetRef)
    (hm : (f1 v1).metrics.Perm (f2 v2).metrics) :
    FamilyOutputPerm (wrapVPAFunc f1 (.vpa v1)) (wrapVPAFunc f2 (.vpa v2)) := by
  show ((f1 v1).metrics.map (wrapMetric v1)).Perm ((f2 v2).metrics.map (wrapMetric v2))
  have hw : wrapMetric v2 = wrapMetric v1 := by
    funext m
    simp [wrapMetric, hns, hn, ht]
  rw [hw]
  exact hm.map _

/-- C5 (amended): the registered generators are deterministic up to the
enumeration order of the embedded Go maps — for any two embeddings of
the same object snapshot whose annotation and label maps have pairwise
distinct sanitized keys, every generator produces families whose metric
sequences are permutations of one another (identical output whenever
the maps enumerate identically, since the functions are pure). With a
sanitized-key collision even this fails: the wildcard composer's
first-seen-wins resolution picks an enumeration-dependent surviving
value, as the counterexample shows. -/
theorem spec_C5 (allowAnnotationsList allowLabelsList : List String)
    (v1 v2 : VerticalPodAutoscaler) (h : VPASnapshotEquiv v1 v2)
    (hannnd : (v1.annotations.map (fun kv => sanitizeLabelName kv.1)).Nodup)
    (hlabnd : (v1.labels.map (fun kv => sanitizeLabelName kv.1)).Nodup) :
    ∀ g ∈ vpaMetricFamilies allowAnnotationsList allowLabelsList,
      FamilyOutputPerm (g.generateFunc (.vpa v1)) (g.generateFunc (.vpa v2)) := by
  obtain ⟨hns, hn, hann, hlab, htr, hup, hrp, hrec⟩ := h
  intro g hg
  simp only [vpaMetricFamilies, NewFamilyGenerator, List.mem_cons, List.not_mem_nil,
    or_false] at hg
  rcases hg with rfl | rfl | rfl | rfl | rfl | rfl | rfl | rfl | rfl
  · exact wrapVPAFunc_perm hns hn htr
      (by rw [vpaAnnotationsFunc_eq allowAnnotationsList hann hannnd])
  · exact wrapVPAFunc_perm hns hn htr
      (by rw [vpaLabelsFunc_eq allowLabelsList hlab hlabnd])
  · exact wrapVPAFunc_perm hns hn htr (by rw [vpaUpdateModeFunc_eq hup])
  · exact wrapVPAFunc_perm hns hn htr (vpaMinAllowedFunc_perm hrp)
  · exact wrapVPAFunc_perm hns hn htr (vpaMaxAllowedFunc_perm hrp)
  · exact wrapVPAFunc_perm hns hn htr (vpaLowerBoundFunc_perm hrec)
  · exact wrapVPAFunc_perm hns hn htr (vpaUpperBoundFunc_perm hrec)
  · exact wrapVPAFunc_perm hns hn htr (vpaTargetFunc_perm hrec)
  · exact wrapVPAFunc_perm hns hn htr (vpaUncappedTargetFunc_perm hrec)

/-- Container policy whose min-allowed map enumerates cpu before memory. -/
def cexPolicy1 : ContainerResourcePolicy :=
  { containerName := "app",
    minAllowed := [(resourceCPU, ⟨500, 1⟩), (resourceMemory, ⟨134217728000, 134217728⟩)],
    maxAllowed := [] }

/-- The same container policy with the map enumerated memory first. -/
def cexPolicy2 : ContainerResourcePolicy :=
  { containerName := "app",
    minAllowed := [(resourceMemory, ⟨134217728000, 134217728⟩), (resourceCPU, ⟨500, 1⟩)],
    maxAllowed := [] }

/-- Object snapshot carrying `cexPolicy1`. -/
def cexVPA1 : VerticalPodAutoscaler :=
  { namespaceName := "ns1", name := "vpa1", annotations := [], labels := [],
    spec := { targetRef := none, updatePolicy := none,
              resourcePolicy := some { containerPolicies := some [cexPolicy1] } },
    status := { recommendation := none } }

/-- The same object snapshot with the resource map enumerated the other
way. -/
def cexVPA2 : VerticalPodAutoscaler :=
  { namespaceName := "ns1", name := "vpa1", annotations := [], labels := [],
    spec := { targetRef := none, updatePolicy := none,
              resourcePolicy := some { containerPolicies := some [cexPolicy2] } },
    status := { recommendation := none } }

/-- Object whose annotations map holds two keys with the same sanitized
form, enumerated "a.b" first. -/
def cexAnnVPA1 : VerticalPodAutoscaler :=
  { namespaceName := "ns1", name := "vpa1",
    annotations := [("a.b", "1"), ("a-b", "2")], labels := [],
    spec := { targetRef := none, updatePolicy := none, resourcePolicy := none },
    status := { recommendation := none } }

/-- The same annotations map enumerated "a-b" first. -/
def cexAnnVPA2 : VerticalPodAutoscaler :=
  { namespaceName := "ns1", name := "vpa1",
    annotations := [("a-b", "2"), ("a.b", "1")], labels := [],
    spec := { targetRef := none, updatePolicy := none, resourcePolicy := none },
    status := { recommendation := none } }

/-- Helper: sanitizing "a.b" replaces the dot. -/
theorem sanitizeLabelName_adotb : sanitizeLabelName "a.b" = "a_b" := by decide

/-- Helper: sanitizing "a-b" replaces the hyphen, colliding with "a.b". -/
theorem sanitizeLabelName_adashb : sanitizeLabelName "a-b" = "a_b" := by decide

/-- Helper: the wildcard composer output for the "a.b"-first enumeration
of the colliding map — first-seen-wins keeps the value "1". -/
theorem composer_collision_1 :
    createPrometheusLabelKeysValues "annotation" [("a.b", "1"), ("a-b", "2")] ["*"] =
      (["annotation_a_b"], ["1"]) := by
  have hms : ([("annotation_a_b", "1"), ("annotation_a_b", "2")] :
      List (String × String)).mergeSort (fun a b => decide (a.1 ≤ b.1)) =
      [("annotation_a_b", "1"), ("annotation_a_b", "2")] :=
    List.mergeSort_of_sorted (by simp)
  have step1 : createPrometheusLabelKeysValues "annotation"
      [("a.b", "1"), ("a-b", "2")] ["*"] =
      ((dedupByKey (([("annotation_a_b", "1"), ("annotation_a_b", "2")] :
          List (String × String)).mergeSort (fun a b => decide (a.1 ≤ b.1))) []).map
        Prod.fst,
       (dedupByKey (([("annotation_a_b", "1"), ("annotation_a_b", "2")] :
          List (String × String)).mergeSort (fun a b => decide (a.1 ≤ b.1))) []).map
        Prod.snd) := rfl
  rw [step1, hms]
  decide

/-- Helper: the wildcard composer output for the "a-b"-first enumeration
of the same map — first-seen-wins keeps the value "2" instead. -/
theorem composer_collision_2 :
    createPrometheusLabelKeysValues "annotation" [("a-b", "2"), ("a.b", "1")] ["*"] =
      (["annotation_a_b"], ["2"]) := by
  have hms : ([("annotation_a_b", "2"), ("annotation_a_b", "1")] :
      List (String × String)).mergeSort (fun a b => decide (a.1 ≤ b.1)) =
      [("annotation_a_b", "2"), ("annotation_a_b", "1")] :=
    List.mergeSort_of_sorted (by simp)
  have step1 : createPrometheusLabelKeysValues "annotation"
      [("a-b", "2"), ("a.b", "1")] ["*"] =
      ((dedupByKey (([("annotation_a_b", "2"), ("annotation_a_b", "1")] :
          List (String × String)).mergeSort (fun a b => decide (a.1 ≤ b.1))) []).map
        Prod.fst,
       (dedupByKey (([("annotation_a_b", "2"), ("annotation_a_b", "1")] :
          List (String × String)).mergeSort (fun a b => decide (a.1 ≤ b.1))) []).map
        Prod.snd) := rfl
  rw [step1, hms]
  decide

/-- Counterexample for C5 as stated: the Go code ranges over Go maps,
whose enumeration order is unspecified, so two invocations on the same
snapshot need not be byte-identical. First part: the two orders of the
same two-entry resource map yield differently ordered metric sequences.
Second part: with two annotation keys sanitizing to the same label key,
the two orders of the same annotations map under the wildcard allow-list
yield metrics that differ in a label value — not even a permutation of
each other. -/
theorem spec_C5_counterexample :
    (cexPolicy1.minAllowed.Perm cexPolicy2.minAllowed ∧
      wrapVPAFunc vpaMinAllowedFunc (.vpa cexVPA1) ≠
        wrapVPAFunc vpaMinAllowedFunc (.vpa cexVPA2)) ∧
    (cexAnnVPA1.annotations.Perm cexAnnVPA2.annotations ∧
      ¬ FamilyOutputPerm (wrapVPAFunc (vpaAnnotationsFunc ["*"]) (.vpa cexAnnVPA1))
          (wrapVPAFunc (vpaAnnotationsFunc ["*"]) (.vpa cexAnnVPA2))) := by
  refine ⟨⟨by decide, ?_⟩, by decide, ?_⟩
  · intro hcontra
    have h1 := congrArg
      (fun e => (Except.toOption e).map (fun fam => fam.metrics.map (fun m => m.labelValues)))
      hcontra
    exact absurd h1 (by decide)
  · intro hperm
    rw [wrapVPAFunc_vpa, wrapVPAFunc_vpa] at hperm
    have hA : vpaAnnotationsFunc ["*"] cexAnnVPA1 =
        { metrics := [⟨["annotation_a_b"], ["1"], 1⟩] } := by
      simp [vpaAnnotationsFunc, cexAnnVPA1, composer_collision_1]
    have hB : vpaAnnotationsFunc ["*"] cexAnnVPA2 =
        { metrics := [⟨["annotation_a_b"], ["2"], 1⟩] } := by
      simp [vpaAnnotationsFunc, cexAnnVPA2, composer_collision_2]
    rw [hA, hB] at hperm
    replace hperm :
        ([wrapMetric cexAnnVPA1 ⟨["annotation_a_b"], ["1"], 1⟩]).Perm
          ([wrapMetric cexAnnVPA2 ⟨["annotation_a_b"], ["2"], 1⟩]) := hperm
    have heq := List.perm_singleton.mp hperm
    have hval := congrArg (fun l => l.map (fun m => m.labelValues)) heq
    exact absurd hval (by decide)

/-- Witness for C5: the two enumerations of the counterexample snapshot
give permuted min-allowed families. -/
theorem spec_C5_witness :
    FamilyOutputPerm
      (((vpaMetricFamilies [] []).get ⟨3, by decide⟩).generateFunc (.vpa cexVPA1))
      (((vpaMetricFamilies [] []).get ⟨3, by decide⟩).generateFunc (.vpa cexVPA2)) := by
  refine spec_C5 [] [] cexVPA1 cexVPA2 ?_ (by decide) (by decide) _ (List.get_mem _ _ _)
  refine ⟨rfl, rfl, List.Perm.rfl, List.Perm.rfl, rfl, rfl, ?_, ?_⟩
  · show List.Forall₂ ContainerPolicyEquiv [cexPolicy1] [cexPolicy2]
    refine List.Forall₂.cons ⟨rfl, ?_, List.Perm.rfl⟩ List.Forall₂.nil
    decide
  · trivial

end KSM
